import Mathlib

/-!
Verification of the relayer connection lifecycle of the jito-solana proxy:
the auth token state machine (`core/src/proxy/auth.rs`), the connection
supervisor and packet-stream consumer (`core/src/proxy/relayer_stage.rs`),
and the blocking proxy client (`mev/src/blocking_proxy_client.rs`).

The Rust code is shallowly embedded: network calls become oracle
parameters (`Except`-valued inputs standing for the RPC results), shared
mutable cells become explicit state records, `tokio::select!` arms become
a step function over an event type, and machine integers become `Nat`
with explicit saturation / wrap-around where the source saturates or
casts.
-/

namespace Jito

/-- Modelled from the spec: the `ProxyError` enum of `crate::proxy` (its
defining module is not under `src/`; only its constructor applications
are).  Variants are taken from the spec's error-kind list in §7 together
with every constructor applied in the sources under `src/`:
`AuthenticationError`, `BadAuthenticationToken`,
`AuthenticationConnectionTimeout`, `AuthenticationConnectionError`,
`AuthenticationTimeout`, `RelayerConnectionTimeout`,
`RelayerConnectionError`, `MissingTpuSocket`, `BadTpuSocket`,
`GrpcStreamDisconnected`, `HeartbeatExpired`, `HeartbeatChannelError`,
`PacketForwardError`, and the spec's `IdentityChanged`. -/
inductive ProxyError where
  | AuthenticationError (msg : String)
  | BadAuthenticationToken (msg : String)
  | AuthenticationConnectionTimeout
  | AuthenticationConnectionError (msg : String)
  | AuthenticationTimeout
  | RelayerConnectionTimeout
  | RelayerConnectionError (msg : String)
  | MissingTpuSocket (which : String)
  | BadTpuSocket (msg : String)
  | GrpcStreamDisconnected
  | HeartbeatExpired
  | HeartbeatChannelError
  | PacketForwardError
  | IdentityChanged
  deriving DecidableEq, Repr

/-- `prost_types::Timestamp` as used by the auth token protos: only the
`seconds` field (an `i64`) is ever read by the code under `src/`. -/
structure Timestamp where
  seconds : Int
  deriving DecidableEq, Repr

/-- `jito_protos::proto::auth::Token`: an opaque token string plus an
optional expiry timestamp. -/
structure Token where
  value : String
  expires_at_utc : Option Timestamp
  deriving DecidableEq, Repr

/-- `u64` saturating addition (`saturating_add_assign!` on `u64`). -/
def satAdd64 (a b : Nat) : Nat := min (a + b) (2 ^ 64 - 1)

/-- `u64` wrapping addition (release-mode `+=` on `u64`). -/
def addWrap64 (a b : Nat) : Nat := (a + b) % 2 ^ 64

/-- `token.expires_at_utc.as_ref().map(|ts| ts.seconds as u64).unwrap_or_default()`
from `auth.rs` lines 107-118: the `i64 as u64` cast is wrap-around. -/
def tokenExpirySeconds (t : Token) : Nat :=
  match t.expires_at_utc with
  | some ts => (ts.seconds % (2 : Int) ^ 64).toNat
  | none => 0

/-- `get_validated_token` (`auth.rs` lines 175-185): a candidate token is
rejected when it is `None` or when its `expires_at_utc` field is `None`;
otherwise it is returned unchanged. -/
def get_validated_token (maybe_token : Option Token) : Except ProxyError Token :=
  match maybe_token with
  | none => .error (.BadAuthenticationToken "received a null token")
  | some token =>
    if token.expires_at_utc.isNone then
      .error (.BadAuthenticationToken "expires_at_utc field is null")
    else
      .ok token

/-- The three possible outcomes of the refresh decision in
`maybe_refresh_auth_tokens`. -/
inductive RefreshDecision where
  | noop
  | lightRefresh
  | fullReauth
  deriving DecidableEq, Repr

/-- The decision logic of `maybe_refresh_auth_tokens` (`auth.rs` lines
120-127 and 144): `checked_sub(now).unwrap_or_default()` on `u64` is
exactly truncated `Nat` subtraction, and the full-reauth test is made
first. -/
def refreshDecision (access_token_expiry refresh_token_expiry now lookahead : Nat) :
    RefreshDecision :=
  let should_refresh_access := access_token_expiry - now ≤ lookahead
  let should_generate_new_tokens := refresh_token_expiry - now ≤ lookahead
  if should_generate_new_tokens then .fullReauth
  else if should_refresh_access then .lightRefresh
  else .noop

/-- The credential state threaded through `maybe_refresh_auth_tokens`:
the shared access-token cell's contents, the maintenance routine's
private refresh token, and the two refresh counters held by the
streaming loop (`relayer_stage.rs` lines 341-342). -/
structure AuthState where
  access_token : Token
  refresh_token : Token
  num_full_refreshes : Nat
  num_refresh_access_token : Nat
  deriving DecidableEq, Repr

/-- `maybe_refresh_auth_tokens` (`auth.rs` lines 100-157).  The two RPC
paths are oracle parameters: `genTokens` stands for the result of
`generate_auth_tokens` (a validated access/refresh pair) and
`refreshAccess` for `refresh_access_token` applied to the current
refresh token.  When neither branch is taken the state is returned
unchanged. -/
def maybe_refresh_auth_tokens (genTokens : Except ProxyError (Token × Token))
    (refreshAccess : Token → Except ProxyError Token)
    (now auth_refresh_lookahead : Nat) (s : AuthState) : Except ProxyError AuthState :=
  let access_token_expiry := tokenExpirySeconds s.access_token
  let refresh_token_expiry := tokenExpirySeconds s.refresh_token
  let should_refresh_access :=
    access_token_expiry - now ≤ auth_refresh_lookahead
  let should_generate_new_tokens :=
    refresh_token_expiry - now ≤ auth_refresh_lookahead
  if should_generate_new_tokens then
    match genTokens with
    | .error e => .error e
    | .ok (new_access_token, new_refresh_token) =>
      .ok { access_token := new_access_token
            refresh_token := new_refresh_token
            num_full_refreshes := addWrap64 s.num_full_refreshes 1
            num_refresh_access_token := s.num_refresh_access_token }
  else if should_refresh_access then
    match refreshAccess s.refresh_token with
    | .error e => .error e
    | .ok new_access_token =>
      .ok { access_token := new_access_token
            refresh_token := s.refresh_token
            num_full_refreshes := s.num_full_refreshes
            num_refresh_access_token := addWrap64 s.num_refresh_access_token 1 }
  else
    .ok s

/-! ## The packet-stream consumer (`relayer_stage.rs`) -/

/-- Per-interval counters of the streaming loop (`RelayerStageStats`,
`relayer_stage.rs` lines 51-56). -/
structure RelayerStageStats where
  num_empty_messages : Nat
  num_packets : Nat
  num_heartbeats : Nat
  deriving DecidableEq, Repr

/-- `RelayerStageStats::default()`: all counters zero. -/
def RelayerStageStats.zero : RelayerStageStats :=
  { num_empty_messages := 0, num_packets := 0, num_heartbeats := 0 }

/-- An IPv4 address as four octets (`std::net::Ipv4Addr`). -/
structure Ipv4Addr where
  a : Nat
  b : Nat
  c : Nat
  d : Nat
  deriving DecidableEq, Repr

/-- `std::net::SocketAddr` restricted to the V4 form built by the code. -/
structure SocketAddr where
  ip : Ipv4Addr
  port : Nat
  deriving DecidableEq, Repr

/-- `HeartbeatEvent`: the TPU / TPU-forward socket pair resolved once per
connection. -/
structure HeartbeatEvent where
  tpu_socket : SocketAddr
  tpu_forward_socket : SocketAddr
  deriving DecidableEq, Repr

section Consumer

-- `P` is the wire packet type (`jito_protos` packet), `Q` the
-- validator-internal packet type (`solana_perf::packet::Packet`).
variable {P Q : Type}

/-- The payload of a `SubscribePacketsResponse`
(`relayer::subscribe_packets_response::Msg`): either a packet batch or a
heartbeat.  A batch carries its `packets` list. -/
inductive RelayerMsg (P : Type) where
  | Batch (packets : List P)
  | Heartbeat
  deriving DecidableEq, Repr

/-- `relayer::SubscribePacketsResponse`: an optional message payload
(`None` is an empty message). -/
structure SubscribePacketsResponse (P : Type) where
  msg : Option (RelayerMsg P)
  deriving DecidableEq, Repr

/-- What one loop iteration pushes onto the three outbound channels and
the metrics sink.  A `PacketBatch` is a list of internal packets; the
verified sink carries `(Vec<PacketBatch>, Option<SigverifyTracerPacketStats>)`
pairs, whose stats slot the code only ever fills with `None` (so the
stats type is modelled as `Unit`). -/
structure StepOutputs (Q : Type) where
  verified_sent : List (List (List Q) × Option Unit)
  unverified_sent : List (List Q)
  heartbeats_sent : List HeartbeatEvent
  reports : List RelayerStageStats
  deriving DecidableEq, Repr

/-- No outputs. -/
def StepOutputs.none : StepOutputs Q :=
  { verified_sent := [], unverified_sent := [], heartbeats_sent := [], reports := [] }

/-- `RelayerStage::handle_relayer_packets` (`relayer_stage.rs` lines
391-436).  `proto_packet_to_packet` (defined outside `src/`) is a
parameter; each `crossbeam` sender is modelled by an open/closed flag
plus the record of what was sent; `Instant::now()` is the `now`
parameter; the function returns the updated `last_heartbeat_ts`, the
updated stats and the outputs, or the fatal error. -/
def handle_relayer_packets (proto_packet_to_packet : P → Q)
    (subscribe_packets_resp : SubscribePacketsResponse P)
    (heartbeat_event : HeartbeatEvent) (heartbeat_open : Bool)
    (now last_heartbeat_ts : Nat) (packet_open : Bool)
    (trust_packets : Bool) (verified_packet_open : Bool)
    (relayer_stats : RelayerStageStats) :
    Except ProxyError (Nat × RelayerStageStats × StepOutputs Q) :=
  match subscribe_packets_resp.msg with
  | none =>
    .ok (last_heartbeat_ts,
      { relayer_stats with
        num_empty_messages := satAdd64 relayer_stats.num_empty_messages 1 },
      StepOutputs.none)
  | some (.Batch proto_batch) =>
    let packet_batch := proto_batch.map proto_packet_to_packet
    let stats :=
      { relayer_stats with
        num_packets := satAdd64 relayer_stats.num_packets packet_batch.length }
    if trust_packets then
      if verified_packet_open then
        .ok (last_heartbeat_ts, stats,
          { StepOutputs.none with verified_sent := [([packet_batch], Option.none)] })
      else
        .error .PacketForwardError
    else
      if packet_open then
        .ok (last_heartbeat_ts, stats,
          { StepOutputs.none with unverified_sent := [packet_batch] })
      else
        .error .PacketForwardError
  | some .Heartbeat =>
    let stats :=
      { relayer_stats with
        num_heartbeats := satAdd64 relayer_stats.num_heartbeats 1 }
    if heartbeat_open then
      .ok (now, stats, { StepOutputs.none with heartbeats_sent := [heartbeat_event] })
    else
      .error .HeartbeatChannelError

/-- `MAINTENANCE_TICK` of `consume_packet_stream`, in seconds. -/
def MAINTENANCE_TICK_S : Nat := 10 * 60

/-- `AUTH_REFRESH_LOOKAHEAD` (`relayer_stage.rs` lines 333-336):
maintenance tick plus 25%, with `u64` saturating mul/div (no saturation
occurs at these magnitudes). -/
def AUTH_REFRESH_LOOKAHEAD : Nat := MAINTENANCE_TICK_S * 5 / 4

/-- The four event sources raced by the `tokio::select!` in
`consume_packet_stream`.  A stream message carries
`packet_stream.message()`'s result: a transport error (already converted
to `ProxyError`), end of stream (`none`), or a response. -/
inductive LoopEvent (P : Type) where
  | streamMsg (maybe_msg : Except ProxyError (Option (SubscribePacketsResponse P)))
  | heartbeatTick
  | metricsTick
  | maintenanceTick

/-- The mutable state of one `consume_packet_stream` iteration:
`last_heartbeat_ts` (an `Instant`, modelled as seconds on a monotone
clock), the per-interval stats, and the credential state. -/
structure LoopState where
  last_heartbeat_ts : Nat
  relayer_stats : RelayerStageStats
  auth : AuthState
  deriving DecidableEq, Repr

/-- One iteration of the `tokio::select!` loop of
`RelayerStage::consume_packet_stream` (`relayer_stage.rs` lines
352-386), dispatching on which arm fired.  `PK` is the public-key type
(`cluster_id` is `cluster_info.id()`, `keypair_pubkey` is
`keypair.pubkey()` captured at connect time); `now` is the current
instant of the monotone clock. -/
def consume_step (proto_packet_to_packet : P → Q)
    (heartbeat_event : HeartbeatEvent) (heartbeat_open : Bool)
    (oldest_allowed_heartbeat : Nat)
    (packet_open : Bool) (trust_packets : Bool) (verified_packet_open : Bool)
    {PK : Type} [DecidableEq PK] (cluster_id keypair_pubkey : PK)
    (genTokens : Except ProxyError (Token × Token))
    (refreshAccess : Token → Except ProxyError Token)
    (now : Nat) (ev : LoopEvent P) (s : LoopState) :
    Except ProxyError (LoopState × StepOutputs Q) :=
  match ev with
  | .streamMsg maybe_msg =>
    match maybe_msg with
    | .error e => .error e
    | .ok Option.none => .error .GrpcStreamDisconnected
    | .ok (some resp) =>
      match handle_relayer_packets proto_packet_to_packet resp heartbeat_event
          heartbeat_open now s.last_heartbeat_ts packet_open trust_packets
          verified_packet_open s.relayer_stats with
      | .error e => .error e
      | .ok (ts, stats, outs) =>
        .ok ({ s with last_heartbeat_ts := ts, relayer_stats := stats }, outs)
  | .heartbeatTick =>
    if oldest_allowed_heartbeat < now - s.last_heartbeat_ts then
      .error .HeartbeatExpired
    else
      .ok (s, StepOutputs.none)
  | .metricsTick =>
    .ok ({ s with relayer_stats := RelayerStageStats.zero },
      { StepOutputs.none with reports := [s.relayer_stats] })
  | .maintenanceTick =>
    if cluster_id ≠ keypair_pubkey then
      .error (.AuthenticationConnectionError "Validator ID Changed")
    else
      match maybe_refresh_auth_tokens genTokens refreshAccess now
          AUTH_REFRESH_LOOKAHEAD s.auth with
      | .error e => .error e
      | .ok a => .ok ({ s with auth := a }, StepOutputs.none)

end Consumer

/-! ## The connection supervisor (`RelayerStage::start`) -/

/-- `MAX_BACKOFF_S` (`relayer_stage.rs` line 144). -/
def MAX_BACKOFF_S : Nat := 10

/-- The initial value of `backoff_sec` (`relayer_stage.rs` line 146). -/
def INITIAL_BACKOFF_S : Nat := 1

/-- The failure branch's update `backoff_sec = min(backoff_sec + 1, MAX_BACKOFF_S)`
(`relayer_stage.rs` line 172); the supervisor then sleeps exactly this
many seconds. -/
def nextBackoff (backoff_sec : Nat) : Nat := min (backoff_sec + 1) MAX_BACKOFF_S

/-- `backoff_sec` after the supervisor loop has processed the given
attempt results (`true` = `connect_auth_and_stream` returned `Ok`):
success resets it to `0`, failure applies `nextBackoff`. -/
def backoffAfter (backoff_sec : Nat) : List Bool → Nat
  | [] => backoff_sec
  | ok :: rest => backoffAfter (if ok then 0 else nextBackoff backoff_sec) rest

/-- The sequence of sleep durations the supervisor performs over the
given attempt results (it sleeps only on failure, for the just-updated
`backoff_sec`). -/
def sleepsFrom (backoff_sec : Nat) : List Bool → List Nat
  | [] => []
  | ok :: rest =>
    if ok then sleepsFrom 0 rest
    else nextBackoff backoff_sec :: sleepsFrom (nextBackoff backoff_sec) rest

/-! ## TPU config resolution -/

/-- The `ProxyError` enum of `mev/src/blocking_proxy_client.rs` (lines
27-39).  `BadUrl`/`ConnectionError`/`GrpcError`/`BadTpuSocket` wrap a
foreign error value, modelled by its display string. -/
inductive MevProxyError where
  | BadUrl (msg : String)
  | ConnectionError (msg : String)
  | GrpcError (msg : String)
  | MissingTpuSocket (which : String)
  | BadTpuSocket (msg : String)
  deriving DecidableEq, Repr

/-- The proto socket record returned in TPU configs: an IP string and an
integer port field. -/
structure ProtoSocketAddr where
  ip : String
  port : Nat
  deriving DecidableEq, Repr

/-- The `GetTpuConfigs` response payload: two optional proto sockets. -/
structure TpuConfigs where
  tpu : Option ProtoSocketAddr
  tpu_forward : Option ProtoSocketAddr
  deriving DecidableEq, Repr

/-- Rust's `as u16` cast on an unsigned integer: truncation mod `2^16`. -/
def castU16 (n : Nat) : Nat := n % 2 ^ 16

/-- `BlockingProxyClient::fetch_tpu_config` (`blocking_proxy_client.rs`
lines 56-76) after the RPC returned `tpu_configs`.  `Ipv4Addr::from_str`
is std-library code, passed in as `parseIpv4`; a parse failure becomes
`BadTpuSocket` (via `#[from] AddrParseError`, modelled by the offending
string). -/
def fetch_tpu_config (parseIpv4 : String → Option Ipv4Addr)
    (tpu_configs : TpuConfigs) : Except MevProxyError (SocketAddr × SocketAddr) :=
  match tpu_configs.tpu with
  | none => .error (.MissingTpuSocket "tpu")
  | some tpu_addr =>
    match tpu_configs.tpu_forward with
    | none => .error (.MissingTpuSocket "tpu_fwd")
    | some tpu_forward_addr =>
      match parseIpv4 tpu_addr.ip with
      | none => .error (.BadTpuSocket tpu_addr.ip)
      | some tpu_ip =>
        match parseIpv4 tpu_forward_addr.ip with
        | none => .error (.BadTpuSocket tpu_forward_addr.ip)
        | some tpu_forward_ip =>
          .ok ({ ip := tpu_ip, port := castU16 tpu_addr.port },
            { ip := tpu_forward_ip, port := castU16 tpu_forward_addr.port })

/-- The identical socket-resolution block at the top of
`RelayerStage::start_consuming_relayer_packets` (`relayer_stage.rs`
lines 266-285), which builds the connection's `HeartbeatEvent`; parse
failures propagate through `?` as the core `ProxyError`'s bad-socket
variant. -/
def resolve_heartbeat_event (parseIpv4 : String → Option Ipv4Addr)
    (tpu_config : TpuConfigs) : Except ProxyError HeartbeatEvent :=
  match tpu_config.tpu with
  | none => .error (.MissingTpuSocket "tpu")
  | some tpu_addr =>
    match tpu_config.tpu_forward with
    | none => .error (.MissingTpuSocket "tpu_fwd")
    | some tpu_forward_addr =>
      match parseIpv4 tpu_addr.ip with
      | none => .error (.BadTpuSocket tpu_addr.ip)
      | some tpu_ip =>
        match parseIpv4 tpu_forward_addr.ip with
        | none => .error (.BadTpuSocket tpu_forward_addr.ip)
        | some tpu_forward_ip =>
          .ok { tpu_socket := { ip := tpu_ip, port := castU16 tpu_addr.port }
                tpu_forward_socket :=
                  { ip := tpu_forward_ip, port := castU16 tpu_forward_addr.port } }

/-! ## The challenge/response handshake (`generate_auth_tokens`) -/

/-- An abstract signature scheme standing for Ed25519 as exposed by
`solana_sdk` (`Keypair`, `Signer::sign_message`, and the `Display` /
`as_ref` views of `Pubkey`); messages are the strings whose UTF-8 bytes
the Rust code signs. -/
structure SigScheme (Key PubKey Sig : Type) where
  pubkey : Key → PubKey
  pubkeyText : PubKey → String
  pubkeyBytes : PubKey → List Nat
  sign : Key → String → Sig
  verify : PubKey → String → Sig → Bool

/-- Correctness of a signature scheme: a signature produced by a keypair
verifies against that keypair's public key. -/
def SigScheme.Correct {Key PubKey Sig : Type} (sch : SigScheme Key PubKey Sig) : Prop :=
  ∀ k m, sch.verify (sch.pubkey k) m (sch.sign k m) = true

/-- `jito_protos::proto::auth::GenerateAuthTokensRequest` as built in
`generate_auth_tokens`. -/
structure GenerateAuthTokensRequest (Sig : Type) where
  challenge : String
  client_pubkey : List Nat
  signed_challenge : Sig

/-- The request construction of `generate_auth_tokens` (`auth.rs` lines
64-86): format the challenge as `"<pubkey>-<challenge>"`, sign that
exact string, and send it with the public key bytes. -/
def authTokensRequest {Key PubKey Sig : Type} (sch : SigScheme Key PubKey Sig)
    (keypair : Key) (challenge : String) : GenerateAuthTokensRequest Sig :=
  let formatted_challenge := sch.pubkeyText (sch.pubkey keypair) ++ "-" ++ challenge
  { challenge := formatted_challenge
    client_pubkey := sch.pubkeyBytes (sch.pubkey keypair)
    signed_challenge := sch.sign keypair formatted_challenge }

/-- `generate_auth_tokens` (`auth.rs` lines 47-95).  The two RPCs are
oracles: `challengeResp` is the `generate_auth_challenge` result and
`tokensResp` maps the request actually sent to the
`generate_auth_tokens` response; RPC errors become
`AuthenticationError` and both returned tokens pass
`get_validated_token`. -/
def generate_auth_tokens {Key PubKey Sig : Type} (sch : SigScheme Key PubKey Sig)
    (challengeResp : Except String String)
    (tokensResp : GenerateAuthTokensRequest Sig → Except String (Option Token × Option Token))
    (keypair : Key) : Except ProxyError (Token × Token) :=
  match challengeResp with
  | .error e => .error (.AuthenticationError e)
  | .ok challenge =>
    match tokensResp (authTokensRequest sch keypair challenge) with
    | .error e => .error (.AuthenticationError e)
    | .ok (maybe_access, maybe_refresh) =>
      match get_validated_token maybe_access with
      | .error e => .error e
      | .ok access_token =>
        match get_validated_token maybe_refresh with
        | .error e => .error e
        | .ok refresh_token => .ok (access_token, refresh_token)

/-! ## Theorems -/

/-- C1: for every access expiry, refresh expiry, current time `now`, and
lookahead window, the refresh decision computes the remaining times by
subtraction saturating at 0 (`Nat` subtraction); if the refresh
remainder is at most the lookahead it chooses full reauth regardless of
the access expiry, else if the access remainder is at most the lookahead
it chooses a light refresh, else neither; and equality with the
lookahead triggers the refresh (the comparison is `≤`, not `<`). -/
theorem refreshDecision_spec (access_expiry refresh_expiry now lookahead : Nat) :
    (refresh_expiry - now ≤ lookahead →
      refreshDecision access_expiry refresh_expiry now lookahead = .fullReauth) ∧
    (lookahead < refresh_expiry - now → access_expiry - now ≤ lookahead →
      refreshDecision access_expiry refresh_expiry now lookahead = .lightRefresh) ∧
    (lookahead < refresh_expiry - now → lookahead < access_expiry - now →
      refreshDecision access_expiry refresh_expiry now lookahead = .noop) ∧
    (refresh_expiry - now = lookahead →
      refreshDecision access_expiry refresh_expiry now lookahead = .fullReauth) ∧
    (access_expiry - now = lookahead →
      refreshDecision access_expiry refresh_expiry now lookahead ≠ .noop) := by
  refine ⟨?_, ?_, ?_, ?_, ?_⟩
  · intro h
    simp only [refreshDecision]
    rw [if_pos h]
  · intro h1 h2
    simp only [refreshDecision]
    rw [if_neg (by omega), if_pos h2]
  · intro h1 h2
    simp only [refreshDecision]
    rw [if_neg (by omega), if_neg (by omega)]
  · intro h
    simp only [refreshDecision]
    rw [if_pos (by omega)]
  · intro h
    simp only [refreshDecision]
    split_ifs with h1 h2 <;> simp_all

/-- Witness for C1: concrete decisions exercising each branch and the
boundary. -/
theorem refreshDecision_spec_witness :
    refreshDecision 0 5 0 10 = .fullReauth ∧
    refreshDecision 5 20 0 10 = .lightRefresh ∧
    refreshDecision 20 20 0 10 = .noop ∧
    refreshDecision 0 10 0 10 = .fullReauth ∧
    refreshDecision 10 20 0 10 ≠ .noop :=
  ⟨(refreshDecision_spec 0 5 0 10).1 (by decide),
   (refreshDecision_spec 5 20 0 10).2.1 (by decide) (by decide),
   (refreshDecision_spec 20 20 0 10).2.2.1 (by decide) (by decide),
   (refreshDecision_spec 0 10 0 10).2.2.2.1 (by decide),
   (refreshDecision_spec 10 20 0 10).2.2.2.2 (by decide)⟩

/-- C6: token validation fails with `BadAuthenticationToken` when the
candidate credential is absent or carries no expiry timestamp, and
succeeds returning the credential unchanged on every well-formed
credential. -/
theorem get_validated_token_spec :
    get_validated_token none =
      .error (.BadAuthenticationToken "received a null token") ∧
    (∀ token : Token, token.expires_at_utc = none →
      get_validated_token (some token) =
        .error (.BadAuthenticationToken "expires_at_utc field is null")) ∧
    (∀ (token : Token) (ts : Timestamp), token.expires_at_utc = some ts →
      get_validated_token (some token) = .ok token) := by
  refine ⟨rfl, ?_, ?_⟩
  · intro token h
    simp [get_validated_token, h]
  · intro token ts h
    simp [get_validated_token, h]

/-- Witness for C6: a credential without expiry is rejected, a
well-formed one is returned unchanged. -/
theorem get_validated_token_spec_witness :
    get_validated_token (some { value := "tok", expires_at_utc := none }) =
      .error (.BadAuthenticationToken "expires_at_utc field is null") ∧
    get_validated_token
        (some { value := "tok", expires_at_utc := some { seconds := 7 } }) =
      .ok { value := "tok", expires_at_utc := some { seconds := 7 } } :=
  ⟨get_validated_token_spec.2.1 { value := "tok", expires_at_utc := none } rfl,
   get_validated_token_spec.2.2
     { value := "tok", expires_at_utc := some { seconds := 7 } } { seconds := 7 } rfl⟩

/-- C8: side effects of a successful `maybe_refresh_auth_tokens` call:
on a light refresh only the shared access credential is overwritten and
the lightweight-refresh counter is incremented; on a full reauth both
credentials are overwritten with the newly minted pair and the full-reauth
counter is incremented; when no refresh is decided nothing changes. -/
theorem maybe_refresh_side_effects (genTokens : Except ProxyError (Token × Token))
    (refreshAccess : Token → Except ProxyError Token)
    (now lookahead : Nat) (s : AuthState) :
    (refreshDecision (tokenExpirySeconds s.access_token)
        (tokenExpirySeconds s.refresh_token) now lookahead = .noop →
      maybe_refresh_auth_tokens genTokens refreshAccess now lookahead s = .ok s) ∧
    (∀ t : Token,
      refreshDecision (tokenExpirySeconds s.access_token)
        (tokenExpirySeconds s.refresh_token) now lookahead = .lightRefresh →
      refreshAccess s.refresh_token = .ok t →
      maybe_refresh_auth_tokens genTokens refreshAccess now lookahead s =
        .ok { access_token := t
              refresh_token := s.refresh_token
              num_full_refreshes := s.num_full_refreshes
              num_refresh_access_token := addWrap64 s.num_refresh_access_token 1 }) ∧
    (∀ a r : Token,
      refreshDecision (tokenExpirySeconds s.access_token)
        (tokenExpirySeconds s.refresh_token) now lookahead = .fullReauth →
      genTokens = .ok (a, r) →
      maybe_refresh_auth_tokens genTokens refreshAccess now lookahead s =
        .ok { access_token := a
              refresh_token := r
              num_full_refreshes := addWrap64 s.num_full_refreshes 1
              num_refresh_access_token := s.num_refresh_access_token }) := by
  refine ⟨?_, ?_, ?_⟩
  · intro hd
    simp only [refreshDecision] at hd
    simp only [maybe_refresh_auth_tokens]
    split_ifs at hd ⊢
    all_goals simp_all
  · intro t hd hr
    simp only [refreshDecision] at hd
    simp only [maybe_refresh_auth_tokens]
    split_ifs at hd ⊢
    all_goals simp_all
  · intro a r hd hg
    simp only [refreshDecision] at hd
    simp only [maybe_refresh_auth_tokens]
    split_ifs at hd ⊢
    all_goals simp_all

/-- Witness for C8: a concrete state exercising all three outcomes (the
noop state has far-off expiries; light refresh has a near access expiry;
full reauth has a near refresh expiry). -/
theorem maybe_refresh_side_effects_witness :
    (maybe_refresh_auth_tokens (.error .HeartbeatExpired)
        (fun _ => .error .HeartbeatExpired) 0 10
        { access_token := { value := "a", expires_at_utc := some { seconds := 100 } }
          refresh_token := { value := "r", expires_at_utc := some { seconds := 100 } }
          num_full_refreshes := 0
          num_refresh_access_token := 0 } =
      .ok { access_token := { value := "a", expires_at_utc := some { seconds := 100 } }
            refresh_token := { value := "r", expires_at_utc := some { seconds := 100 } }
            num_full_refreshes := 0
            num_refresh_access_token := 0 }) ∧
    (maybe_refresh_auth_tokens (.error .HeartbeatExpired)
        (fun _ => .ok { value := "a2", expires_at_utc := some { seconds := 200 } }) 0 10
        { access_token := { value := "a", expires_at_utc := some { seconds := 5 } }
          refresh_token := { value := "r", expires_at_utc := some { seconds := 100 } }
          num_full_refreshes := 0
          num_refresh_access_token := 0 } =
      .ok { access_token := { value := "a2", expires_at_utc := some { seconds := 200 } }
            refresh_token := { value := "r", expires_at_utc := some { seconds := 100 } }
            num_full_refreshes := 0
            num_refresh_access_token := 1 }) ∧
    (maybe_refresh_auth_tokens
        (.ok ({ value := "a3", expires_at_utc := some { seconds := 300 } },
              { value := "r3", expires_at_utc := some { seconds := 400 } }))
        (fun _ => .error .HeartbeatExpired) 0 10
        { access_token := { value := "a", expires_at_utc := some { seconds := 100 } }
          refresh_token := { value := "r", expires_at_utc := some { seconds := 5 } }
          num_full_refreshes := 0
          num_refresh_access_token := 0 } =
      .ok { access_token := { value := "a3", expires_at_utc := some { seconds := 300 } }
            refresh_token := { value := "r3", expires_at_utc := some { seconds := 400 } }
            num_full_refreshes := 1
            num_refresh_access_token := 0 }) :=
  ⟨(maybe_refresh_side_effects _ _ 0 10 _).1 (by decide),
   (maybe_refresh_side_effects _ _ 0 10 _).2.1 _ (by decide) rfl,
   (maybe_refresh_side_effects _ _ 0 10 _).2.2 _ _ (by decide) rfl⟩

/-- C9: handling a stream message with an absent payload returns `Ok`,
increments only the empty-message counter, sends nothing on any sink,
and leaves the last-heartbeat timestamp unchanged (so an empty message
never resets the heartbeat watchdog clock). -/
theorem empty_message_frame {P Q : Type} (proto_packet_to_packet : P → Q)
    (heartbeat_event : HeartbeatEvent) (heartbeat_open : Bool)
    (now last_heartbeat_ts : Nat) (packet_open trust_packets verified_packet_open : Bool)
    (relayer_stats : RelayerStageStats) :
    handle_relayer_packets proto_packet_to_packet { msg := none } heartbeat_event
        heartbeat_open now last_heartbeat_ts packet_open trust_packets
        verified_packet_open relayer_stats =
      .ok (last_heartbeat_ts,
        { num_empty_messages := satAdd64 relayer_stats.num_empty_messages 1
          num_packets := relayer_stats.num_packets
          num_heartbeats := relayer_stats.num_heartbeats },
        StepOutputs.none) := rfl

/-- C5: a received packet batch is translated element-wise to the
internal representation; with `trust_packets` on, the whole batch goes
to the verified sink paired with an absent stats slot and nothing goes
to the unverified sink, and with `trust_packets` off the reverse holds;
in either case a closed sink yields the fatal `PacketForwardError`. -/
theorem packet_routing {P Q : Type} (proto_packet_to_packet : P → Q)
    (proto_batch : List P) (heartbeat_event : HeartbeatEvent) (heartbeat_open : Bool)
    (now last_heartbeat_ts : Nat) (packet_open verified_packet_open : Bool)
    (relayer_stats : RelayerStageStats) :
    (verified_packet_open = true →
      handle_relayer_packets proto_packet_to_packet
          { msg := some (.Batch proto_batch) } heartbeat_event heartbeat_open now
          last_heartbeat_ts packet_open true verified_packet_open relayer_stats =
        .ok (last_heartbeat_ts,
          { relayer_stats with
            num_packets :=
              satAdd64 relayer_stats.num_packets
                (proto_batch.map proto_packet_to_packet).length },
          { StepOutputs.none with
            verified_sent := [([proto_batch.map proto_packet_to_packet], none)] })) ∧
    (verified_packet_open = false →
      handle_relayer_packets proto_packet_to_packet
          { msg := some (.Batch proto_batch) } heartbeat_event heartbeat_open now
          last_heartbeat_ts packet_open true verified_packet_open relayer_stats =
        .error .PacketForwardError) ∧
    (packet_open = true →
      handle_relayer_packets proto_packet_to_packet
          { msg := some (.Batch proto_batch) } heartbeat_event heartbeat_open now
          last_heartbeat_ts packet_open false verified_packet_open relayer_stats =
        .ok (last_heartbeat_ts,
          { relayer_stats with
            num_packets :=
              satAdd64 relayer_stats.num_packets
                (proto_batch.map proto_packet_to_packet).length },
          { StepOutputs.none with
            unverified_sent := [proto_batch.map proto_packet_to_packet] })) ∧
    (packet_open = false →
      handle_relayer_packets proto_packet_to_packet
          { msg := some (.Batch proto_batch) } heartbeat_event heartbeat_open now
          last_heartbeat_ts packet_open false verified_packet_open relayer_stats =
        .error .PacketForwardError) := by
  refine ⟨?_, ?_, ?_, ?_⟩
  all_goals intro h
  all_goals simp [handle_relayer_packets, h]

/-- Witness for C5: a three-packet batch routed under each flag and
channel combination. -/
theorem packet_routing_witness :
    (handle_relayer_packets (fun n : Nat => n + 1)
        { msg := some (.Batch [1, 2, 3]) }
        { tpu_socket := { ip := { a := 127, b := 0, c := 0, d := 1 }, port := 80 }
          tpu_forward_socket :=
            { ip := { a := 127, b := 0, c := 0, d := 1 }, port := 81 } }
        true 9 4 true true true
        { num_empty_messages := 0, num_packets := 0, num_heartbeats := 0 } =
      .ok (4, { num_empty_messages := 0, num_packets := 3, num_heartbeats := 0 },
        { verified_sent := [([[2, 3, 4]], none)], unverified_sent := []
          heartbeats_sent := [], reports := [] })) ∧
    (handle_relayer_packets (fun n : Nat => n + 1)
        { msg := some (.Batch [1, 2, 3]) }
        { tpu_socket := { ip := { a := 127, b := 0, c := 0, d := 1 }, port := 80 }
          tpu_forward_socket :=
            { ip := { a := 127, b := 0, c := 0, d := 1 }, port := 81 } }
        true 9 4 true false false
        { num_empty_messages := 0, num_packets := 0, num_heartbeats := 0 } =
      .ok (4, { num_empty_messages := 0, num_packets := 3, num_heartbeats := 0 },
        { verified_sent := [], unverified_sent := [[2, 3, 4]]
          heartbeats_sent := [], reports := [] })) ∧
    (handle_relayer_packets (fun n : Nat => n + 1)
        { msg := some (.Batch [1, 2, 3]) }
        { tpu_socket := { ip := { a := 127, b := 0, c := 0, d := 1 }, port := 80 }
          tpu_forward_socket :=
            { ip := { a := 127, b := 0, c := 0, d := 1 }, port := 81 } }
        true 9 4 false false false
        { num_empty_messages := 0, num_packets := 0, num_heartbeats := 0 } =
      .error .PacketForwardError) := by
  refine ⟨?_, ?_, ?_⟩
  · have h := (packet_routing (fun n : Nat => n + 1) [1, 2, 3]
      { tpu_socket := { ip := { a := 127, b := 0, c := 0, d := 1 }, port := 80 }
        tpu_forward_socket :=
          { ip := { a := 127, b := 0, c := 0, d := 1 }, port := 81 } }
      true 9 4 true true
      { num_empty_messages := 0, num_packets := 0, num_heartbeats := 0 }).1 rfl
    simpa using h
  · have h := (packet_routing (fun n : Nat => n + 1) [1, 2, 3]
      { tpu_socket := { ip := { a := 127, b := 0, c := 0, d := 1 }, port := 80 }
        tpu_forward_socket :=
          { ip := { a := 127, b := 0, c := 0, d := 1 }, port := 81 } }
      true 9 4 true false
      { num_empty_messages := 0, num_packets := 0, num_heartbeats := 0 }).2.2.1 rfl
    simpa using h
  · have h := (packet_routing (fun n : Nat => n + 1) [1, 2, 3]
      { tpu_socket := { ip := { a := 127, b := 0, c := 0, d := 1 }, port := 80 }
        tpu_forward_socket :=
          { ip := { a := 127, b := 0, c := 0, d := 1 }, port := 81 } }
      true 9 4 false false
      { num_empty_messages := 0, num_packets := 0, num_heartbeats := 0 }).2.2.2 rfl
    simpa using h

/-- C4: on a heartbeat-deadline tick the loop fails with
`HeartbeatExpired` exactly when the time since the last recorded
heartbeat strictly exceeds `oldest_allowed_heartbeat`; a heartbeat
message resets the last-heartbeat timestamp to the current time; and a
state whose last heartbeat is recent enough survives the next tick
unchanged. -/
theorem heartbeat_watchdog {P Q PK : Type} [DecidableEq PK]
    (proto_packet_to_packet : P → Q) (heartbeat_event : HeartbeatEvent)
    (oldest_allowed_heartbeat : Nat)
    (packet_open trust_packets verified_packet_open : Bool)
    (cluster_id keypair_pubkey : PK)
    (genTokens : Except ProxyError (Token × Token))
    (refreshAccess : Token → Except ProxyError Token) :
    (∀ (now : Nat) (s : LoopState),
      oldest_allowed_heartbeat < now - s.last_heartbeat_ts →
      consume_step proto_packet_to_packet heartbeat_event true
          oldest_allowed_heartbeat packet_open trust_packets verified_packet_open
          cluster_id keypair_pubkey genTokens refreshAccess now
          (LoopEvent.heartbeatTick (P := P)) s =
        .error .HeartbeatExpired) ∧
    (∀ (t : Nat) (s : LoopState),
      consume_step proto_packet_to_packet heartbeat_event true
          oldest_allowed_heartbeat packet_open trust_packets verified_packet_open
          cluster_id keypair_pubkey genTokens refreshAccess t
          (LoopEvent.streamMsg (P := P) (.ok (some { msg := some .Heartbeat }))) s =
        .ok ({ s with
               last_heartbeat_ts := t
               relayer_stats :=
                 { s.relayer_stats with
                   num_heartbeats := satAdd64 s.relayer_stats.num_heartbeats 1 } },
          { StepOutputs.none with heartbeats_sent := [heartbeat_event] })) ∧
    (∀ (t2 : Nat) (s : LoopState),
      t2 - s.last_heartbeat_ts ≤ oldest_allowed_heartbeat →
      consume_step proto_packet_to_packet heartbeat_event true
          oldest_allowed_heartbeat packet_open trust_packets verified_packet_open
          cluster_id keypair_pubkey genTokens refreshAccess t2
          (LoopEvent.heartbeatTick (P := P)) s =
        .ok (s, StepOutputs.none)) := by
  refine ⟨?_, ?_, ?_⟩
  · intro now s h
    simp only [consume_step]
    rw [if_pos h]
  · intro t s
    simp [consume_step, handle_relayer_packets]
  · intro t2 s h
    simp only [consume_step]
    rw [if_neg (by omega)]

/-- Witness for C4: a stale tick expires; a heartbeat at time 100 resets
the timestamp; a tick 4 seconds later (allowance 5) survives. -/
theorem heartbeat_watchdog_witness :
    (consume_step (fun n : Nat => n)
        { tpu_socket := { ip := { a := 127, b := 0, c := 0, d := 1 }, port := 80 }
          tpu_forward_socket :=
            { ip := { a := 127, b := 0, c := 0, d := 1 }, port := 81 } }
        true 5 true false true (0 : Nat) 0
        (.error .HeartbeatExpired) (fun _ => .error .HeartbeatExpired) 100
        (LoopEvent.heartbeatTick (P := Nat))
        { last_heartbeat_ts := 0, relayer_stats := RelayerStageStats.zero
          auth :=
            { access_token := { value := "a", expires_at_utc := none }
              refresh_token := { value := "r", expires_at_utc := none }
              num_full_refreshes := 0, num_refresh_access_token := 0 } } =
      .error .HeartbeatExpired) ∧
    (consume_step (fun n : Nat => n)
        { tpu_socket := { ip := { a := 127, b := 0, c := 0, d := 1 }, port := 80 }
          tpu_forward_socket :=
            { ip := { a := 127, b := 0, c := 0, d := 1 }, port := 81 } }
        true 5 true false true (0 : Nat) 0
        (.error .HeartbeatExpired) (fun _ => .error .HeartbeatExpired) 100
        (LoopEvent.streamMsg (P := Nat) (.ok (some { msg := some .Heartbeat })))
        { last_heartbeat_ts := 0, relayer_stats := RelayerStageStats.zero
          auth :=
            { access_token := { value := "a", expires_at_utc := none }
              refresh_token := { value := "r", expires_at_utc := none }
              num_full_refreshes := 0, num_refresh_access_token := 0 } } =
      .ok ({ last_heartbeat_ts := 100
             relayer_stats :=
               { num_empty_messages := 0, num_packets := 0, num_heartbeats := 1 }
             auth :=
               { access_token := { value := "a", expires_at_utc := none }
                 refresh_token := { value := "r", expires_at_utc := none }
                 num_full_refreshes := 0, num_refresh_access_token := 0 } },
        { verified_sent := [], unverified_sent := []
          heartbeats_sent :=
            [{ tpu_socket := { ip := { a := 127, b := 0, c := 0, d := 1 }, port := 80 }
               tpu_forward_socket :=
                 { ip := { a := 127, b := 0, c := 0, d := 1 }, port := 81 } }]
          reports := [] })) ∧
    (consume_step (fun n : Nat => n)
        { tpu_socket := { ip := { a := 127, b := 0, c := 0, d := 1 }, port := 80 }
          tpu_forward_socket :=
            { ip := { a := 127, b := 0, c := 0, d := 1 }, port := 81 } }
        true 5 true false true (0 : Nat) 0
        (.error .HeartbeatExpired) (fun _ => .error .HeartbeatExpired) 104
        (LoopEvent.heartbeatTick (P := Nat))
        { last_heartbeat_ts := 100, relayer_stats := RelayerStageStats.zero
          auth :=
            { access_token := { value := "a", expires_at_utc := none }
              refresh_token := { value := "r", expires_at_utc := none }
              num_full_refreshes := 0, num_refresh_access_token := 0 } } =
      .ok ({ last_heartbeat_ts := 100, relayer_stats := RelayerStageStats.zero
             auth :=
               { access_token := { value := "a", expires_at_utc := none }
                 refresh_token := { value := "r", expires_at_utc := none }
                 num_full_refreshes := 0, num_refresh_access_token := 0 } },
        StepOutputs.none)) := by
  refine ⟨?_, ?_, ?_⟩
  · exact (heartbeat_watchdog (fun n : Nat => n) _ 5 true false true 0 0 _ _).1
      100 _ (by decide)
  · have h := (heartbeat_watchdog (fun n : Nat => n)
      { tpu_socket := { ip := { a := 127, b := 0, c := 0, d := 1 }, port := 80 }
        tpu_forward_socket :=
          { ip := { a := 127, b := 0, c := 0, d := 1 }, port := 81 } }
      5 true false true (0 : Nat) 0
      (.error .HeartbeatExpired) (fun _ => .error .HeartbeatExpired)).2.1 100
      { last_heartbeat_ts := 0, relayer_stats := RelayerStageStats.zero
        auth :=
          { access_token := { value := "a", expires_at_utc := none }
            refresh_token := { value := "r", expires_at_utc := none }
            num_full_refreshes := 0, num_refresh_access_token := 0 } }
    simpa using h
  · exact (heartbeat_watchdog (fun n : Nat => n) _ 5 true false true 0 0 _ _).2.2
      104 _ (by decide)

/-- Counterexample for C3: on a maintenance tick with a changed local
identity the code fails with
`AuthenticationConnectionError("Validator ID Changed")`, not with an
`IdentityChanged` error kind. -/
theorem identity_change_counterexample :
    consume_step (fun n : Nat => n)
        { tpu_socket := { ip := { a := 127, b := 0, c := 0, d := 1 }, port := 80 }
          tpu_forward_socket :=
            { ip := { a := 127, b := 0, c := 0, d := 1 }, port := 81 } }
        true 5 true false true (0 : Nat) 1
        (.error .HeartbeatExpired) (fun _ => .error .HeartbeatExpired) 100
        (LoopEvent.maintenanceTick (P := Nat))
        { last_heartbeat_ts := 0, relayer_stats := RelayerStageStats.zero
          auth :=
            { access_token := { value := "a", expires_at_utc := none }
              refresh_token := { value := "r", expires_at_utc := none }
              num_full_refreshes := 0, num_refresh_access_token := 0 } } =
      .error (.AuthenticationConnectionError "Validator ID Changed") ∧
    consume_step (fun n : Nat => n)
        { tpu_socket := { ip := { a := 127, b := 0, c := 0, d := 1 }, port := 80 }
          tpu_forward_socket :=
            { ip := { a := 127, b := 0, c := 0, d := 1 }, port := 81 } }
        true 5 true false true (0 : Nat) 1
        (.error .HeartbeatExpired) (fun _ => .error .HeartbeatExpired) 100
        (LoopEvent.maintenanceTick (P := Nat))
        { last_heartbeat_ts := 0, relayer_stats := RelayerStageStats.zero
          auth :=
            { access_token := { value := "a", expires_at_utc := none }
              refresh_token := { value := "r", expires_at_utc := none }
              num_full_refreshes := 0, num_refresh_access_token := 0 } } ≠
      .error .IdentityChanged := by
  refine ⟨rfl, fun h => ?_⟩
  have h2 : Except.error (ε := ProxyError) (α := LoopState × StepOutputs Nat)
      (.AuthenticationConnectionError "Validator ID Changed") =
      Except.error .IdentityChanged := h
  injection h2 with h3
  exact ProxyError.noConfusion h3

/-- C3 (amended): on a maintenance tick with the local signing identity
differing from the identity captured at connect time, the loop fails
fatally with `AuthenticationConnectionError("Validator ID Changed")`,
and it does so for every auth-service oracle — i.e. before any refresh
or re-authentication RPC is attempted. -/
theorem identity_change_amended {P Q PK : Type} [DecidableEq PK]
    (proto_packet_to_packet : P → Q) (heartbeat_event : HeartbeatEvent)
    (heartbeat_open : Bool) (oldest_allowed_heartbeat : Nat)
    (packet_open trust_packets verified_packet_open : Bool)
    (cluster_id keypair_pubkey : PK)
    (genTokens : Except ProxyError (Token × Token))
    (refreshAccess : Token → Except ProxyError Token)
    (now : Nat) (s : LoopState) (h : cluster_id ≠ keypair_pubkey) :
    consume_step proto_packet_to_packet heartbeat_event heartbeat_open
        oldest_allowed_heartbeat packet_open trust_packets verified_packet_open
        cluster_id keypair_pubkey genTokens refreshAccess now
        (LoopEvent.maintenanceTick (P := P)) s =
      .error (.AuthenticationConnectionError "Validator ID Changed") := by
  simp only [consume_step]
  rw [if_pos h]

/-- Witness for C3 (amended): concrete identities `0 ≠ 1`. -/
theorem identity_change_amended_witness :
    consume_step (fun n : Nat => n)
        { tpu_socket := { ip := { a := 127, b := 0, c := 0, d := 1 }, port := 80 }
          tpu_forward_socket :=
            { ip := { a := 127, b := 0, c := 0, d := 1 }, port := 81 } }
        false 7 false true false (0 : Nat) 1
        (.ok ({ value := "a", expires_at_utc := some { seconds := 9 } },
              { value := "r", expires_at_utc := some { seconds := 9 } }))
        (fun _ => .ok { value := "a", expires_at_utc := some { seconds := 9 } }) 3
        (LoopEvent.maintenanceTick (P := Nat))
        { last_heartbeat_ts := 0, relayer_stats := RelayerStageStats.zero
          auth :=
            { access_token := { value := "a", expires_at_utc := none }
              refresh_token := { value := "r", expires_at_utc := none }
              num_full_refreshes := 0, num_refresh_access_token := 0 } } =
      .error (.AuthenticationConnectionError "Validator ID Changed") :=
  identity_change_amended (fun n : Nat => n) _ false 7 false true false 0 1 _ _ 3 _
    (by decide)

/-- Counterexample for C2: at startup `backoff_sec` is initialised to 1,
so the very first failure sleeps `min(1+1, 10) = 2` seconds, not 1. -/
theorem supervisor_backoff_startup_counterexample :
    backoffAfter INITIAL_BACKOFF_S (List.replicate 1 false) = 2 ∧
    sleepsFrom INITIAL_BACKOFF_S (List.replicate 1 false) = [2] ∧
    backoffAfter INITIAL_BACKOFF_S (List.replicate 1 false) ≠ 1 := by
  refine ⟨rfl, rfl, ?_⟩
  decide

/-- The backoff value never exceeds `MAX_BACKOFF_S` once it is at most
`MAX_BACKOFF_S`. -/
theorem backoffAfter_le (rs : List Bool) :
    ∀ b : Nat, b ≤ MAX_BACKOFF_S → backoffAfter b rs ≤ MAX_BACKOFF_S := by
  induction rs with
  | nil => intro b hb; simpa [backoffAfter] using hb
  | cons r rest ih =>
    intro b hb
    simp only [backoffAfter]
    apply ih
    cases r <;> simp [nextBackoff]

/-- Every sleep duration is at most `MAX_BACKOFF_S` once the backoff is. -/
theorem sleepsFrom_le (rs : List Bool) :
    ∀ b x : Nat, b ≤ MAX_BACKOFF_S → x ∈ sleepsFrom b rs → x ≤ MAX_BACKOFF_S := by
  induction rs with
  | nil => intro b x _ hx; simp [sleepsFrom] at hx
  | cons r rest ih =>
    intro b x hb hx
    cases r with
    | true => exact ih 0 x (by simp [MAX_BACKOFF_S]) (by simpa [sleepsFrom] using hx)
    | false =>
      simp only [sleepsFrom, Bool.false_eq_true, if_false, List.mem_cons] at hx
      rcases hx with h | h
      · subst h; simp [nextBackoff]
      · exact ih (nextBackoff b) x (by simp [nextBackoff]) h

/-- A run of consecutive failures adds one second per failure, capped at
`MAX_BACKOFF_S`. -/
theorem backoffAfter_replicate_false (N : Nat) :
    ∀ b : Nat, b ≤ MAX_BACKOFF_S →
      backoffAfter b (List.replicate N false) = min (b + N) MAX_BACKOFF_S := by
  induction N with
  | zero =>
    intro b hb
    simp only [List.replicate, backoffAfter]
    simp [MAX_BACKOFF_S] at hb ⊢
    omega
  | succ n ih =>
    intro b hb
    rw [List.replicate_succ]
    simp only [backoffAfter, Bool.false_eq_true, if_false]
    rw [ih (nextBackoff b) (by simp [nextBackoff])]
    simp only [nextBackoff, MAX_BACKOFF_S]
    omega

/-- C2 (amended): after a successful connection the backoff resets to 0
and the next failure sleeps 1 second; after a success, the backoff after
`N ≤ 10` consecutive failures equals `N` seconds; but in the very first
failure sequence after startup the backoff starts from 1, so after `N`
consecutive failures it equals `min (N+1) 10`; and neither the backoff
value nor any sleep ever exceeds 10 seconds. -/
theorem supervisor_backoff_amended :
    (∀ b : Nat, backoffAfter b [true] = 0) ∧
    (∀ (b : Nat) (rest : List Bool),
      sleepsFrom b (true :: false :: rest) = 1 :: sleepsFrom 1 rest) ∧
    (∀ N : Nat, N ≤ MAX_BACKOFF_S →
      backoffAfter 0 (List.replicate N false) = N) ∧
    (∀ N : Nat, backoffAfter INITIAL_BACKOFF_S (List.replicate N false) =
      min (N + 1) MAX_BACKOFF_S) ∧
    (∀ (b : Nat) (rs : List Bool), b ≤ MAX_BACKOFF_S →
      backoffAfter b rs ≤ MAX_BACKOFF_S) ∧
    (∀ (b x : Nat) (rs : List Bool), b ≤ MAX_BACKOFF_S →
      x ∈ sleepsFrom b rs → x ≤ MAX_BACKOFF_S) := by
  refine ⟨?_, ?_, ?_, ?_, ?_, ?_⟩
  · intro b
    rfl
  · intro b rest
    simp [sleepsFrom, nextBackoff, MAX_BACKOFF_S]
  · intro N hN
    rw [backoffAfter_replicate_false N 0 (by simp [MAX_BACKOFF_S])]
    omega
  · intro N
    rw [backoffAfter_replicate_false N INITIAL_BACKOFF_S
      (by simp [INITIAL_BACKOFF_S, MAX_BACKOFF_S])]
    simp [INITIAL_BACKOFF_S]
    omega
  · intro b rs hb
    exact backoffAfter_le rs b hb
  · intro b x rs hb hx
    exact sleepsFrom_le rs b x hb hx

/-- Witness for C2 (amended): three failures after a success back off
3 seconds; one failure after startup backs off 2; a long failure run
from startup stays at 10. -/
theorem supervisor_backoff_amended_witness :
    backoffAfter 0 (List.replicate 3 false) = 3 ∧
    backoffAfter INITIAL_BACKOFF_S (List.replicate 1 false) = min 2 MAX_BACKOFF_S ∧
    backoffAfter INITIAL_BACKOFF_S (List.replicate 15 false) ≤ MAX_BACKOFF_S :=
  ⟨supervisor_backoff_amended.2.2.1 3 (by decide),
   supervisor_backoff_amended.2.2.2.1 1,
   supervisor_backoff_amended.2.2.2.2.1 INITIAL_BACKOFF_S
     (List.replicate 15 false) (by decide)⟩

/-- C7: for every signature scheme, identity keypair and server-issued
challenge string: the handshake request carries as its challenge exactly
the concatenation of the identity's textual public-key representation,
the literal separator `"-"`, and the challenge string; the signed
payload is the signature over exactly that concatenation; and whenever
the scheme is correct, the signature verifies against the identity's
public key. -/
theorem challenge_signing {Key PubKey Sig : Type} (sch : SigScheme Key PubKey Sig)
    (keypair : Key) (challenge : String) :
    (authTokensRequest sch keypair challenge).challenge =
      sch.pubkeyText (sch.pubkey keypair) ++ "-" ++ challenge ∧
    (authTokensRequest sch keypair challenge).signed_challenge =
      sch.sign keypair (sch.pubkeyText (sch.pubkey keypair) ++ "-" ++ challenge) ∧
    (sch.Correct →
      sch.verify (sch.pubkey keypair)
          ((authTokensRequest sch keypair challenge).challenge)
          ((authTokensRequest sch keypair challenge).signed_challenge) = true) := by
  refine ⟨rfl, rfl, ?_⟩
  intro hc
  exact hc keypair (sch.pubkeyText (sch.pubkey keypair) ++ "-" ++ challenge)

/-- A concrete correct signature scheme used to witness C7: a signature
is the signed message paired with the signer's public key, and
verification checks both. -/
def toyScheme : SigScheme Nat Nat (String × Nat) :=
  { pubkey := fun k => k + 1
    pubkeyText := fun pk => toString pk
    pubkeyBytes := fun pk => [pk]
    sign := fun k m => (m, k + 1)
    verify := fun pk m s => decide (s = (m, pk)) }

/-- `toyScheme` is correct. -/
theorem toyScheme_correct : toyScheme.Correct := by
  intro k m
  simp [toyScheme, SigScheme.Correct]

/-- Witness for C7: keypair `5`, challenge `"abc"`; the signed payload
is `"6-abc"` and it verifies. -/
theorem challenge_signing_witness :
    (authTokensRequest toyScheme 5 "abc").challenge = "6-abc" ∧
    toyScheme.verify (toyScheme.pubkey 5)
        ((authTokensRequest toyScheme 5 "abc").challenge)
        ((authTokensRequest toyScheme 5 "abc").signed_challenge) = true :=
  ⟨Trans.trans (challenge_signing toyScheme 5 "abc").1 (by decide),
   (challenge_signing toyScheme 5 "abc").2.2 toyScheme_correct⟩

/-- C10: for every TPU configuration whose IP strings parse as IPv4,
socket construction succeeds for every advertised port integer, and the
resulting port is the advertised value reduced modulo `2^16` (the `as
u16` cast) — in both the blocking client's `fetch_tpu_config` and the
relayer stage's `HeartbeatEvent` resolution. -/
theorem tpu_port_truncation (parseIpv4 : String → Option Ipv4Addr)
    (tpu_addr tpu_forward_addr : ProtoSocketAddr) (a b : Ipv4Addr)
    (h1 : parseIpv4 tpu_addr.ip = some a)
    (h2 : parseIpv4 tpu_forward_addr.ip = some b) :
    fetch_tpu_config parseIpv4
        { tpu := some tpu_addr, tpu_forward := some tpu_forward_addr } =
      .ok ({ ip := a, port := tpu_addr.port % 2 ^ 16 },
        { ip := b, port := tpu_forward_addr.port % 2 ^ 16 }) ∧
    resolve_heartbeat_event parseIpv4
        { tpu := some tpu_addr, tpu_forward := some tpu_forward_addr } =
      .ok { tpu_socket := { ip := a, port := tpu_addr.port % 2 ^ 16 }
            tpu_forward_socket := { ip := b, port := tpu_forward_addr.port % 2 ^ 16 } } := by
  constructor
  · simp [fetch_tpu_config, h1, h2, castU16]
  · simp [resolve_heartbeat_event, h1, h2, castU16]

/-- Witness for C10: advertised port 70000 is out of `u16` range yet the
construction succeeds, with port `70000 % 65536 = 4464`. -/
theorem tpu_port_truncation_witness :
    fetch_tpu_config (fun _ => some { a := 127, b := 0, c := 0, d := 1 })
        { tpu := some { ip := "127.0.0.1", port := 70000 }
          tpu_forward := some { ip := "10.0.0.2", port := 70000 } } =
      .ok ({ ip := { a := 127, b := 0, c := 0, d := 1 }, port := 4464 },
        { ip := { a := 127, b := 0, c := 0, d := 1 }, port := 4464 }) := by
  have h := (tpu_port_truncation (fun _ => some { a := 127, b := 0, c := 0, d := 1 })
    { ip := "127.0.0.1", port := 70000 } { ip := "10.0.0.2", port := 70000 }
    { a := 127, b := 0, c := 0, d := 1 } { a := 127, b := 0, c := 0, d := 1 }
    rfl rfl).1
  simpa using h

end Jito
